import Mathlib

set_option maxHeartbeats 1000000

/-!
Shallow embedding of the aiProvider store slice
(src/store/aiInfra/slices/aiProvider/action.ts).

Mutation operations are modelled as deterministic functions on a `Runner`:
the store state, the trace of remote effects issued so far (gateway calls
and SWR cache mutations), an index counting the awaited calls, and a
`failed` flag. An oracle `ok : Nat → Bool` decides whether the n-th
awaited remote call resolves or rejects; once a call rejects, the rest of
the async function body does not run (`failed` latches), mirroring how a
rejected `await` aborts a JavaScript async function.
-/

namespace AiInfra

/-- Classification tag of a provider, mirroring `AiProviderSourceEnum`. -/
inductive AiProviderSource where
  | builtin
  | custom
deriving DecidableEq

/-- Ability flags of a model, mirroring `ModelAbilities`; an absent flag means the ability is off. -/
structure ModelAbilities where
  functionCall : Option Bool := none
  vision : Option Bool := none
  reasoning : Option Bool := none
deriving DecidableEq

/-- The empty ability map, the fallback used for a falsy `model.abilities`. -/
def ModelAbilities.empty : ModelAbilities := {}

/-- An enabled model entry of the runtime-state snapshot. -/
structure EnabledAiModel where
  id : String
  providerId : String
  type : String
  displayName : Option String
  contextWindowTokens : Option Nat
  abilities : Option ModelAbilities
deriving DecidableEq

/-- An enabled provider entry of the runtime-state snapshot. -/
structure EnabledAiProvider where
  id : String
  name : Option String
deriving DecidableEq

/-- The runtime-state snapshot (`AiProviderInitState`) returned by the gateway. -/
structure AiProviderInitState where
  runtimeConfig : List (String × String)
  enabledAiModels : List EnabledAiModel
  enabledAiProviders : List EnabledAiProvider
deriving DecidableEq

/-- A projected model inside the derived enabled-chat-model tree. -/
structure ChatModelCard where
  abilities : ModelAbilities
  contextWindowTokens : Option Nat
  displayName : String
  id : String
deriving DecidableEq

/-- A provider node of the derived enabled-chat-model tree. -/
structure ChatModelGroup where
  children : List ChatModelCard
  id : String
  name : String
deriving DecidableEq

/-- A provider list item (lighter projection of the detail item). -/
structure AiProviderListItem where
  id : String
  name : Option String
  enabled : Bool
  sort : Option Int
deriving DecidableEq

/-- A provider detail item. -/
structure AiProviderDetailItem where
  id : String
  name : Option String
  enabled : Bool
deriving DecidableEq

/-- Parameters of `createNewAiProvider` (`CreateAiProviderParams`). -/
structure CreateAiProviderParams where
  id : String
  name : Option String
  source : AiProviderSource
  config : List (String × String)
deriving DecidableEq

/-- Field record passed to `updateAiProvider`, carried through opaquely. -/
abbrev UpdateAiProviderParams := List (String × String)

/-- Field record passed to `updateAiProviderConfig`, carried through opaquely. -/
abbrev UpdateAiProviderConfigParams := List (String × String)

/-- One entry of the sort map passed to `updateAiProviderSort`. -/
structure AiProviderSortMap where
  id : String
  sort : Int
deriving DecidableEq

/-- SWR cache keys of the slice (`AiProviderSwrKey`); the detail key pairs the
constant with the (possibly undefined) active provider identifier. -/
inductive SwrKey where
  | fetchAiProviderItem (id : Option String)
  | fetchAiProviderList
  | fetchAiProviderRuntimeState
deriving DecidableEq

/-- Remote gateway calls of `aiProviderService` used by the slice. -/
inductive GatewayCall where
  | createAiProvider (params : CreateAiProviderParams)
  | deleteAiProvider (id : String)
  | toggleProviderEnabled (id : String) (enabled : Bool)
  | updateAiProvider (id : String) (value : UpdateAiProviderParams)
  | updateAiProviderConfig (id : String) (value : UpdateAiProviderConfigParams)
  | updateAiProviderOrder (items : List AiProviderSortMap)
deriving DecidableEq

/-- An observable remote effect: a gateway call or an SWR `mutate` on a cache key. -/
inductive Effect where
  | gateway (call : GatewayCall)
  | mutateKey (key : SwrKey)
deriving DecidableEq

/-- The store fields of the slice touched by these actions. -/
structure AiInfraState where
  activeAiProvider : Option String
  aiProviderDetail : Option AiProviderDetailItem
  aiProviderList : List AiProviderListItem
  initAiProviderList : Bool
  aiProviderLoadingIds : List String
  aiProviderRuntimeConfig : List (String × String)
  enabledAiModels : List EnabledAiModel
  enabledAiProviders : List EnabledAiProvider
  enabledChatModelList : List ChatModelGroup
deriving DecidableEq

/-- Execution context of one async action: store state, trace of issued
remote effects, count of awaited calls so far, and whether an awaited call
has rejected (after which nothing further in the body runs). -/
structure Runner where
  st : AiInfraState
  trace : List Effect
  idx : Nat
  failed : Bool
deriving DecidableEq

/-- Synchronous `set` on the store: runs only if no await has rejected yet. -/
def setState (f : AiInfraState → AiInfraState) (r : Runner) : Runner :=
  if r.failed then r else { r with st := f r.st }

/-- An `await` of a remote call: the effect is issued, the oracle decides
whether it resolves; a rejection latches `failed`. -/
def awaitEffect (ok : Nat → Bool) (e : Effect) (r : Runner) : Runner :=
  if r.failed then r
  else { st := r.st, trace := r.trace ++ [e], idx := r.idx + 1, failed := !ok r.idx }

/-- The `internal_toggleAiProviderLoading` state update: append the id when
turning loading on, filter out every occurrence when turning it off. -/
def internal_toggleAiProviderLoading (id : String) (loading : Bool)
    (s : AiInfraState) : AiInfraState :=
  if loading then { s with aiProviderLoadingIds := s.aiProviderLoadingIds ++ [id] }
  else { s with aiProviderLoadingIds := s.aiProviderLoadingIds.filter (fun i => i != id) }

/-- The `refreshAiProviderRuntimeState` action: mutate the runtime-state key. -/
def refreshAiProviderRuntimeState (ok : Nat → Bool) (r : Runner) : Runner :=
  awaitEffect ok (.mutateKey .fetchAiProviderRuntimeState) r

/-- The `refreshAiProviderList` action: mutate the list key, then refresh runtime state. -/
def refreshAiProviderList (ok : Nat → Bool) (r : Runner) : Runner :=
  refreshAiProviderRuntimeState ok (awaitEffect ok (.mutateKey .fetchAiProviderList) r)

/-- The `refreshAiProviderDetail` action: mutate the detail key for the
currently active provider, then refresh runtime state. -/
def refreshAiProviderDetail (ok : Nat → Bool) (r : Runner) : Runner :=
  refreshAiProviderRuntimeState ok
    (awaitEffect ok (.mutateKey (.fetchAiProviderItem r.st.activeAiProvider)) r)

/-- The `createNewAiProvider` action: gateway create with the source forced
to custom, then refresh the list. -/
def createNewAiProvider (params : CreateAiProviderParams) (ok : Nat → Bool)
    (r : Runner) : Runner :=
  refreshAiProviderList ok
    (awaitEffect ok (.gateway (.createAiProvider { params with source := .custom })) r)

/-- The `deleteAiProvider` action: gateway delete, then refresh the list. -/
def deleteAiProvider (id : String) (ok : Nat → Bool) (r : Runner) : Runner :=
  refreshAiProviderList ok (awaitEffect ok (.gateway (.deleteAiProvider id)) r)

/-- The `removeAiProvider` action: gateway delete, then refresh the list. -/
def removeAiProvider (id : String) (ok : Nat → Bool) (r : Runner) : Runner :=
  refreshAiProviderList ok (awaitEffect ok (.gateway (.deleteAiProvider id)) r)

/-- The `toggleProviderEnabled` action: set the loading flag, gateway toggle,
refresh the list, clear the loading flag. -/
def toggleProviderEnabled (id : String) (enabled : Bool) (ok : Nat → Bool)
    (r : Runner) : Runner :=
  setState (internal_toggleAiProviderLoading id false)
    (refreshAiProviderList ok
      (awaitEffect ok (.gateway (.toggleProviderEnabled id enabled))
        (setState (internal_toggleAiProviderLoading id true) r)))

/-- The `updateAiProvider` action: set the loading flag, gateway update,
refresh the list, refresh the detail, clear the loading flag. -/
def updateAiProvider (id : String) (value : UpdateAiProviderParams) (ok : Nat → Bool)
    (r : Runner) : Runner :=
  setState (internal_toggleAiProviderLoading id false)
    (refreshAiProviderDetail ok
      (refreshAiProviderList ok
        (awaitEffect ok (.gateway (.updateAiProvider id value))
          (setState (internal_toggleAiProviderLoading id true) r))))

/-- The `updateAiProviderConfig` action: set the loading flag, gateway
update-config, refresh the detail, clear the loading flag. -/
def updateAiProviderConfig (id : String) (value : UpdateAiProviderConfigParams)
    (ok : Nat → Bool) (r : Runner) : Runner :=
  setState (internal_toggleAiProviderLoading id false)
    (refreshAiProviderDetail ok
      (awaitEffect ok (.gateway (.updateAiProviderConfig id value))
        (setState (internal_toggleAiProviderLoading id true) r)))

/-- The `updateAiProviderSort` action: gateway order update, then refresh the list. -/
def updateAiProviderSort (items : List AiProviderSortMap) (ok : Nat → Bool)
    (r : Runner) : Runner :=
  refreshAiProviderList ok (awaitEffect ok (.gateway (.updateAiProviderOrder items)) r)

/-- The `onSuccess` handler of `useFetchAiProviderItem`: a defined detail
value sets the active provider identifier and the detail; an absent value
is a no-op. -/
def itemOnSuccess (id : String) (data : Option AiProviderDetailItem)
    (s : AiInfraState) : AiInfraState :=
  match data with
  | none => s
  | some d => { s with activeAiProvider := some id, aiProviderDetail := some d }

/-- The `onSuccess` handler of `useFetchAiProviderList`: stores the list,
marking it initialized on the first resolution. -/
def listOnSuccess (data : List AiProviderListItem) (s : AiInfraState) : AiInfraState :=
  if !s.initAiProviderList then { s with aiProviderList := data, initAiProviderList := true }
  else { s with aiProviderList := data }

/-- Recursion core of lodash `uniqBy(models, id-field)`: keep the first
occurrence of each model identifier, in order. -/
def uniqByIdGo (seen : List String) : List ChatModelCard → List ChatModelCard
  | [] => []
  | m :: ms => if m.id ∈ seen then uniqByIdGo seen ms else m :: uniqByIdGo (m.id :: seen) ms

/-- Deduplicate projected models by identifier, first occurrence winning. -/
def uniqById (l : List ChatModelCard) : List ChatModelCard := uniqByIdGo [] l

/-- The `getModelListByType` closure of `useFetchAiProviderRuntimeState`:
filter the snapshot's enabled models by provider and type, project each to
a card with falsy-fallbacks for abilities and display name, deduplicate by id. -/
def getModelListByType (data : AiProviderInitState) (providerId ty : String) :
    List ChatModelCard :=
  uniqById
    ((data.enabledAiModels.filter
        (fun m => m.providerId == providerId && m.type == ty)).map
      (fun m =>
        { abilities := m.abilities.getD ModelAbilities.empty
          contextWindowTokens := m.contextWindowTokens
          displayName := m.displayName.getD ""
          id := m.id }))

/-- The node name `provider.name || provider.id`: a falsy name (absent or
empty) falls back to the provider identifier. -/
def providerDisplayName (p : EnabledAiProvider) : String :=
  match p.name with
  | some n => if n = "" then p.id else n
  | none => p.id

/-- Assembly of the derived enabled-chat-model tree: one node per element
of the snapshot's enabled-provider list, children the deduplicated chat
models of that provider. -/
def buildEnabledChatModelList (data : AiProviderInitState) : List ChatModelGroup :=
  data.enabledAiProviders.map (fun p =>
    { children := getModelListByType data p.id "chat"
      id := p.id
      name := providerDisplayName p })

/-- The `onSuccess` handler of `useFetchAiProviderRuntimeState`: an absent
snapshot is a no-op; a defined one sets the four derived fields in one `set`. -/
def runtimeStateOnSuccess (data : Option AiProviderInitState)
    (s : AiInfraState) : AiInfraState :=
  match data with
  | none => s
  | some d =>
    { s with
      aiProviderRuntimeConfig := d.runtimeConfig
      enabledAiModels := d.enabledAiModels
      enabledAiProviders := d.enabledAiProviders
      enabledChatModelList := buildEnabledChatModelList d }

/-! Helper lemmas about the runner combinators. -/

theorem setState_failed (f : AiInfraState → AiInfraState) (r : Runner) :
    (setState f r).failed = r.failed := by
  unfold setState; split <;> rfl

theorem awaitEffect_st (ok : Nat → Bool) (e : Effect) (r : Runner) :
    (awaitEffect ok e r).st = r.st := by
  unfold awaitEffect; split <;> rfl

theorem refreshAiProviderRuntimeState_st (ok : Nat → Bool) (r : Runner) :
    (refreshAiProviderRuntimeState ok r).st = r.st :=
  awaitEffect_st ok _ r

theorem refreshAiProviderList_st (ok : Nat → Bool) (r : Runner) :
    (refreshAiProviderList ok r).st = r.st := by
  unfold refreshAiProviderList
  rw [refreshAiProviderRuntimeState_st, awaitEffect_st]

theorem refreshAiProviderDetail_st (ok : Nat → Bool) (r : Runner) :
    (refreshAiProviderDetail ok r).st = r.st := by
  unfold refreshAiProviderDetail
  rw [refreshAiProviderRuntimeState_st, awaitEffect_st]

theorem toggleLoading_true_ids (id : String) (s : AiInfraState) :
    (internal_toggleAiProviderLoading id true s).aiProviderLoadingIds =
      s.aiProviderLoadingIds ++ [id] := rfl

theorem toggleLoading_false_ids (id : String) (s : AiInfraState) :
    (internal_toggleAiProviderLoading id false s).aiProviderLoadingIds =
      s.aiProviderLoadingIds.filter (fun i => i != id) := rfl

theorem toggleLoading_active (id : String) (b : Bool) (s : AiInfraState) :
    (internal_toggleAiProviderLoading id b s).activeAiProvider = s.activeAiProvider := by
  unfold internal_toggleAiProviderLoading; split <;> rfl

theorem not_mem_filter_ne_self (id : String) (l : List String) :
    id ∉ l.filter (fun i => i != id) := by
  intro h
  have h2 := List.mem_filter.mp h
  simp at h2

/-- Common shape of the three per-id mutations: a loading bracket around a
gateway call followed by refreshes. If every await resolved, the loading
flag is cleared; if some await rejected, the flag is still set. -/
theorem loading_bracket (id : String) (F : Runner → Runner)
    (hF : ∀ r, (F r).st = r.st) (g : GatewayCall) (ok : Nat → Bool) (r : Runner)
    (h : r.failed = false) :
    (((setState (internal_toggleAiProviderLoading id false)
        (F (awaitEffect ok (.gateway g)
          (setState (internal_toggleAiProviderLoading id true) r)))).failed = false →
      id ∉ (setState (internal_toggleAiProviderLoading id false)
        (F (awaitEffect ok (.gateway g)
          (setState (internal_toggleAiProviderLoading id true) r)))).st.aiProviderLoadingIds)
    ∧ ((setState (internal_toggleAiProviderLoading id false)
        (F (awaitEffect ok (.gateway g)
          (setState (internal_toggleAiProviderLoading id true) r)))).failed = true →
      id ∈ (setState (internal_toggleAiProviderLoading id false)
        (F (awaitEffect ok (.gateway g)
          (setState (internal_toggleAiProviderLoading id true) r)))).st.aiProviderLoadingIds)) := by
  have hr1 : setState (internal_toggleAiProviderLoading id true) r =
      { r with st := internal_toggleAiProviderLoading id true r.st } := by
    unfold setState; rw [h]; simp
  set r3 := F (awaitEffect ok (.gateway g)
    (setState (internal_toggleAiProviderLoading id true) r)) with hr3
  have hst3 : r3.st = internal_toggleAiProviderLoading id true r.st := by
    rw [hr3, hF, awaitEffect_st, hr1]
  constructor
  · intro hdone
    rw [setState_failed] at hdone
    have : setState (internal_toggleAiProviderLoading id false) r3 =
        { r3 with st := internal_toggleAiProviderLoading id false r3.st } := by
      unfold setState; rw [hdone]; simp
    rw [this]
    simp only [toggleLoading_false_ids]
    exact not_mem_filter_ne_self id _
  · intro hfail
    rw [setState_failed] at hfail
    have : setState (internal_toggleAiProviderLoading id false) r3 = r3 := by
      unfold setState; rw [hfail]; simp
    rw [this, hst3, toggleLoading_true_ids]
    simp

theorem setState_trace (f : AiInfraState → AiInfraState) (r : Runner) :
    (setState f r).trace = r.trace := by
  unfold setState; split <;> rfl

theorem setState_idx (f : AiInfraState → AiInfraState) (r : Runner) :
    (setState f r).idx = r.idx := by
  unfold setState; split <;> rfl

theorem setState_not_failed (f : AiInfraState → AiInfraState) (r : Runner)
    (h : r.failed = false) : setState f r = { r with st := f r.st } := by
  unfold setState; rw [h]; simp

theorem awaitEffect_not_failed (ok : Nat → Bool) (e : Effect) (r : Runner)
    (h : r.failed = false) :
    awaitEffect ok e r = ⟨r.st, r.trace ++ [e], r.idx + 1, !ok r.idx⟩ := by
  unfold awaitEffect; rw [h]; simp

theorem awaitEffect_mem_mono (ok : Nat → Bool) (e e2 : Effect) (r : Runner)
    (h : e ∈ r.trace) : e ∈ (awaitEffect ok e2 r).trace := by
  unfold awaitEffect; split
  · exact h
  · simp only [List.mem_append]; exact Or.inl h

theorem refreshAiProviderRuntimeState_mem_mono (ok : Nat → Bool) (e : Effect)
    (r : Runner) (h : e ∈ r.trace) :
    e ∈ (refreshAiProviderRuntimeState ok r).trace :=
  awaitEffect_mem_mono ok e _ r h

theorem refreshAiProviderDetail_mem_mono (ok : Nat → Bool) (e : Effect)
    (r : Runner) (h : e ∈ r.trace) : e ∈ (refreshAiProviderDetail ok r).trace :=
  refreshAiProviderRuntimeState_mem_mono ok e _ (awaitEffect_mem_mono ok e _ r h)

/-- After a successful gateway await, the subsequent `refreshAiProviderList`
always issues the list-key mutation. -/
theorem list_mem_after_gateway (g : GatewayCall) (ok : Nat → Bool) (r : Runner)
    (h : r.failed = false) (h0 : ok r.idx = true) :
    Effect.mutateKey .fetchAiProviderList ∈
      (refreshAiProviderList ok (awaitEffect ok (.gateway g) r)).trace := by
  rw [awaitEffect_not_failed ok _ r h]
  unfold refreshAiProviderList
  apply refreshAiProviderRuntimeState_mem_mono
  rw [awaitEffect_not_failed]
  · simp
  · rw [h0]; rfl

/-- A demonstration store state used for witnesses and counterexamples. -/
def demoState : AiInfraState :=
  { activeAiProvider := some "p2"
    aiProviderDetail := none
    aiProviderList := []
    initAiProviderList := false
    aiProviderLoadingIds := []
    aiProviderRuntimeConfig := []
    enabledAiModels := []
    enabledAiProviders := []
    enabledChatModelList := [] }

/-- A fresh runner over the demonstration state. -/
def demoRunner : Runner := { st := demoState, trace := [], idx := 0, failed := false }

/-- C1: the claim as stated is false: when the gateway call of
`toggleProviderEnabled` rejects, the promise rejects with the identifier
still in `aiProviderLoadingIds` — the clean-up line is never reached
because there is no try/finally around the awaits. -/
theorem C1_counterexample :
    (toggleProviderEnabled "p1" true (fun _ => false) demoRunner).failed = true ∧
    "p1" ∈ (toggleProviderEnabled "p1" true (fun _ => false)
      demoRunner).st.aiProviderLoadingIds := by
  decide

/-- C1 (amended): each per-id mutation (toggleProviderEnabled,
updateAiProvider, updateAiProviderConfig) clears the loading flag only on
the success path: if every awaited call resolved, the identifier is not in
`aiProviderLoadingIds` afterwards; if some awaited call rejected, the
operation rejects with the identifier still present (the flag leaks). -/
theorem C1_amended (id : String) (enabled : Bool)
    (value : UpdateAiProviderParams) (fields : UpdateAiProviderConfigParams)
    (ok : Nat → Bool) (r : Runner) (h : r.failed = false) :
    (((toggleProviderEnabled id enabled ok r).failed = false →
        id ∉ (toggleProviderEnabled id enabled ok r).st.aiProviderLoadingIds)
      ∧ ((toggleProviderEnabled id enabled ok r).failed = true →
        id ∈ (toggleProviderEnabled id enabled ok r).st.aiProviderLoadingIds))
    ∧ (((updateAiProvider id value ok r).failed = false →
        id ∉ (updateAiProvider id value ok r).st.aiProviderLoadingIds)
      ∧ ((updateAiProvider id value ok r).failed = true →
        id ∈ (updateAiProvider id value ok r).st.aiProviderLoadingIds))
    ∧ (((updateAiProviderConfig id fields ok r).failed = false →
        id ∉ (updateAiProviderConfig id fields ok r).st.aiProviderLoadingIds)
      ∧ ((updateAiProviderConfig id fields ok r).failed = true →
        id ∈ (updateAiProviderConfig id fields ok r).st.aiProviderLoadingIds)) := by
  refine ⟨?_, ?_, ?_⟩
  · exact loading_bracket id (refreshAiProviderList ok)
      (refreshAiProviderList_st ok) (.toggleProviderEnabled id enabled) ok r h
  · exact loading_bracket id
      (fun r => refreshAiProviderDetail ok (refreshAiProviderList ok r))
      (fun r => by rw [refreshAiProviderDetail_st, refreshAiProviderList_st])
      (.updateAiProvider id value) ok r h
  · exact loading_bracket id (refreshAiProviderDetail ok)
      (refreshAiProviderDetail_st ok) (.updateAiProviderConfig id fields) ok r h

/-- C1 witness: the amended theorem applied at a concrete input. -/
theorem C1_witness :
    (((toggleProviderEnabled "p1" true (fun _ => true) demoRunner).failed = false →
        "p1" ∉ (toggleProviderEnabled "p1" true (fun _ => true)
          demoRunner).st.aiProviderLoadingIds)
      ∧ ((toggleProviderEnabled "p1" true (fun _ => true) demoRunner).failed = true →
        "p1" ∈ (toggleProviderEnabled "p1" true (fun _ => true)
          demoRunner).st.aiProviderLoadingIds))
    ∧ (((updateAiProvider "p1" [] (fun _ => true) demoRunner).failed = false →
        "p1" ∉ (updateAiProvider "p1" [] (fun _ => true)
          demoRunner).st.aiProviderLoadingIds)
      ∧ ((updateAiProvider "p1" [] (fun _ => true) demoRunner).failed = true →
        "p1" ∈ (updateAiProvider "p1" [] (fun _ => true)
          demoRunner).st.aiProviderLoadingIds))
    ∧ (((updateAiProviderConfig "p1" [] (fun _ => true) demoRunner).failed = false →
        "p1" ∉ (updateAiProviderConfig "p1" [] (fun _ => true)
          demoRunner).st.aiProviderLoadingIds)
      ∧ ((updateAiProviderConfig "p1" [] (fun _ => true) demoRunner).failed = true →
        "p1" ∈ (updateAiProviderConfig "p1" [] (fun _ => true)
          demoRunner).st.aiProviderLoadingIds)) :=
  C1_amended "p1" true [] [] (fun _ => true) demoRunner rfl

/-- C2: the claim as stated is false: `updateAiProviderConfig` with a
successful gateway call refetches only the detail and runtime-state
entries; the provider-list entry is never invalidated. -/
theorem C2_counterexample :
    (updateAiProviderConfig "p2" [("apiKey", "x")] (fun _ => true) demoRunner).failed
        = false ∧
    (updateAiProviderConfig "p2" [("apiKey", "x")] (fun _ => true) demoRunner).trace =
      [.gateway (.updateAiProviderConfig "p2" [("apiKey", "x")]),
       .mutateKey (.fetchAiProviderItem (some "p2")),
       .mutateKey .fetchAiProviderRuntimeState] ∧
    Effect.mutateKey .fetchAiProviderList ∉
      (updateAiProviderConfig "p2" [("apiKey", "x")] (fun _ => true) demoRunner).trace := by
  decide

/-- C2 (amended): create, delete, remove, update-sort, toggle-enabled and
update-fields invalidate the provider-list entry whenever the gateway call
succeeds; `updateAiProviderConfig` never touches the provider-list entry —
on gateway success it refetches only the provider-detail entry (keyed by
the active identifier) and, through it, the runtime-state entry. -/
theorem C2_amended (params : CreateAiProviderParams) (id : String)
    (value : UpdateAiProviderParams) (fields : UpdateAiProviderConfigParams)
    (items : List AiProviderSortMap) (enabled : Bool) (ok : Nat → Bool)
    (s : AiInfraState) (h0 : ok 0 = true) :
    (Effect.mutateKey .fetchAiProviderList ∈
      (createNewAiProvider params ok ⟨s, [], 0, false⟩).trace)
    ∧ (Effect.mutateKey .fetchAiProviderList ∈
      (deleteAiProvider id ok ⟨s, [], 0, false⟩).trace)
    ∧ (Effect.mutateKey .fetchAiProviderList ∈
      (removeAiProvider id ok ⟨s, [], 0, false⟩).trace)
    ∧ (Effect.mutateKey .fetchAiProviderList ∈
      (updateAiProviderSort items ok ⟨s, [], 0, false⟩).trace)
    ∧ (Effect.mutateKey .fetchAiProviderList ∈
      (toggleProviderEnabled id enabled ok ⟨s, [], 0, false⟩).trace)
    ∧ (Effect.mutateKey .fetchAiProviderList ∈
      (updateAiProvider id value ok ⟨s, [], 0, false⟩).trace)
    ∧ (∀ ok2 : Nat → Bool, Effect.mutateKey .fetchAiProviderList ∉
      (updateAiProviderConfig id fields ok2 ⟨s, [], 0, false⟩).trace)
    ∧ (Effect.mutateKey (.fetchAiProviderItem s.activeAiProvider) ∈
      (updateAiProviderConfig id fields ok ⟨s, [], 0, false⟩).trace) := by
  refine ⟨?_, ?_, ?_, ?_, ?_, ?_, ?_, ?_⟩
  · exact list_mem_after_gateway _ ok _ rfl h0
  · exact list_mem_after_gateway _ ok _ rfl h0
  · exact list_mem_after_gateway _ ok _ rfl h0
  · exact list_mem_after_gateway _ ok _ rfl h0
  · unfold toggleProviderEnabled
    rw [setState_trace]
    rw [setState_not_failed _ _ rfl]
    exact list_mem_after_gateway _ ok _ rfl h0
  · unfold updateAiProvider
    rw [setState_trace]
    apply refreshAiProviderDetail_mem_mono
    rw [setState_not_failed _ _ rfl]
    exact list_mem_after_gateway _ ok _ rfl h0
  · intro ok2
    cases hk0 : ok2 0 <;> cases hk1 : ok2 1 <;> cases hk2 : ok2 2 <;>
      simp [updateAiProviderConfig, refreshAiProviderDetail,
        refreshAiProviderRuntimeState, setState, awaitEffect, hk0, hk1, hk2]
  · cases hk1 : ok 1 <;> cases hk2 : ok 2 <;>
      simp [updateAiProviderConfig, refreshAiProviderDetail,
        refreshAiProviderRuntimeState, setState, awaitEffect, h0, hk1, hk2,
        toggleLoading_active]

/-- C2 witness: the amended theorem applied at a concrete input. -/
theorem C2_witness :
    (Effect.mutateKey .fetchAiProviderList ∈
      (createNewAiProvider ⟨"p9", none, .builtin, []⟩ (fun _ => true)
        ⟨demoState, [], 0, false⟩).trace)
    ∧ (Effect.mutateKey .fetchAiProviderList ∈
      (deleteAiProvider "p1" (fun _ => true) ⟨demoState, [], 0, false⟩).trace)
    ∧ (Effect.mutateKey .fetchAiProviderList ∈
      (removeAiProvider "p1" (fun _ => true) ⟨demoState, [], 0, false⟩).trace)
    ∧ (Effect.mutateKey .fetchAiProviderList ∈
      (updateAiProviderSort [] (fun _ => true) ⟨demoState, [], 0, false⟩).trace)
    ∧ (Effect.mutateKey .fetchAiProviderList ∈
      (toggleProviderEnabled "p1" false (fun _ => true) ⟨demoState, [], 0, false⟩).trace)
    ∧ (Effect.mutateKey .fetchAiProviderList ∈
      (updateAiProvider "p1" [] (fun _ => true) ⟨demoState, [], 0, false⟩).trace)
    ∧ (∀ ok2 : Nat → Bool, Effect.mutateKey .fetchAiProviderList ∉
      (updateAiProviderConfig "p1" [] ok2 ⟨demoState, [], 0, false⟩).trace)
    ∧ (Effect.mutateKey (.fetchAiProviderItem demoState.activeAiProvider) ∈
      (updateAiProviderConfig "p1" [] (fun _ => true) ⟨demoState, [], 0, false⟩).trace) :=
  C2_amended ⟨"p9", none, .builtin, []⟩ "p1" [] [] [] false (fun _ => true) demoState rfl

/-- C4: `refreshAiProviderList` first awaits the list-key mutation and,
exactly when that mutation resolves, then issues the runtime-state-key
mutation; when the list mutation rejects the runtime-state mutation is
never started. -/
theorem C4_list_refresh_cascades_runtime_state (ok : Nat → Bool) (r : Runner)
    (h : r.failed = false) :
    (ok r.idx = true →
      (refreshAiProviderList ok r).trace =
        r.trace ++ [.mutateKey .fetchAiProviderList,
          .mutateKey .fetchAiProviderRuntimeState])
    ∧ (ok r.idx = false →
      (refreshAiProviderList ok r).trace =
        r.trace ++ [.mutateKey .fetchAiProviderList]) := by
  constructor
  · intro h0
    unfold refreshAiProviderList refreshAiProviderRuntimeState
    rw [awaitEffect_not_failed ok _ r h]
    rw [awaitEffect_not_failed]
    · simp
    · rw [h0]; rfl
  · intro h0
    unfold refreshAiProviderList refreshAiProviderRuntimeState
    rw [awaitEffect_not_failed ok _ r h]
    unfold awaitEffect
    rw [h0]
    simp

/-- C4 witness: the theorem applied at a concrete input. -/
theorem C4_witness :
    (((fun _ => true) : Nat → Bool) demoRunner.idx = true →
      (refreshAiProviderList (fun _ => true) demoRunner).trace =
        demoRunner.trace ++ [.mutateKey .fetchAiProviderList,
          .mutateKey .fetchAiProviderRuntimeState])
    ∧ (((fun _ => true) : Nat → Bool) demoRunner.idx = false →
      (refreshAiProviderList (fun _ => true) demoRunner).trace =
        demoRunner.trace ++ [.mutateKey .fetchAiProviderList]) :=
  C4_list_refresh_cascades_runtime_state (fun _ => true) demoRunner rfl

theorem awaitEffect_mem (ok : Nat → Bool) (e : Effect) (r : Runner)
    (h : r.failed = false) : e ∈ (awaitEffect ok e r).trace := by
  rw [awaitEffect_not_failed ok e r h]; simp

theorem refreshAiProviderList_mem_mono (ok : Nat → Bool) (e : Effect)
    (r : Runner) (h : e ∈ r.trace) : e ∈ (refreshAiProviderList ok r).trace :=
  refreshAiProviderRuntimeState_mem_mono ok e _ (awaitEffect_mem_mono ok e _ r h)

theorem awaitEffect_trace_append (ok : Nat → Bool) (e : Effect) (r : Runner) :
    ∃ t, (awaitEffect ok e r).trace = r.trace ++ t := by
  unfold awaitEffect; split
  · exact ⟨[], by simp⟩
  · exact ⟨[e], rfl⟩

theorem refreshAiProviderList_trace_append (ok : Nat → Bool) (r : Runner) :
    ∃ t, (refreshAiProviderList ok r).trace = r.trace ++ t := by
  obtain ⟨t1, h1⟩ := awaitEffect_trace_append ok (.mutateKey .fetchAiProviderList) r
  obtain ⟨t2, h2⟩ := awaitEffect_trace_append ok (.mutateKey .fetchAiProviderRuntimeState)
    (awaitEffect ok (.mutateKey .fetchAiProviderList) r)
  exact ⟨t1 ++ t2, by
    unfold refreshAiProviderList refreshAiProviderRuntimeState
    rw [h2, h1, List.append_assoc]⟩

/-- C3: the claim as stated is false: nothing validates the identifier.
With an empty identifier, `toggleProviderEnabled` resolves successfully
after issuing the gateway call and the full refresh cascade, the loading
flag is set (it survives when the gateway rejects), and
`createNewAiProvider` passes the empty identifier straight to the gateway. -/
theorem C3_counterexample :
    (toggleProviderEnabled "" true (fun _ => true) demoRunner).failed = false ∧
    (toggleProviderEnabled "" true (fun _ => true) demoRunner).trace =
      [.gateway (.toggleProviderEnabled "" true),
       .mutateKey .fetchAiProviderList,
       .mutateKey .fetchAiProviderRuntimeState] ∧
    "" ∈ (toggleProviderEnabled "" true (fun _ => false)
      demoRunner).st.aiProviderLoadingIds ∧
    (createNewAiProvider ⟨"", none, .custom, []⟩ (fun _ => true) demoRunner).trace =
      [.gateway (.createAiProvider ⟨"", none, .custom, []⟩),
       .mutateKey .fetchAiProviderList,
       .mutateKey .fetchAiProviderRuntimeState] := by
  decide

/-- C3 (amended): the store slice performs no parameter validation: an
operation called with an empty identifier proceeds exactly as with any
other identifier — the gateway call is issued carrying the empty
identifier (with the source forced to custom for create), the per-id
loading flag is set before the gateway call (so it is observable whenever
the call rejects), and on success the refresh cascade runs; any rejection
of empty identifiers would have to come from the gateway itself. -/
theorem C3_amended (s : AiInfraState) (ok : Nat → Bool) (enabled : Bool)
    (params : CreateAiProviderParams) (hid : params.id = "") :
    (Effect.gateway (.toggleProviderEnabled "" enabled) ∈
      (toggleProviderEnabled "" enabled ok ⟨s, [], 0, false⟩).trace)
    ∧ (Effect.gateway (.createAiProvider { params with source := .custom }) ∈
      (createNewAiProvider params ok ⟨s, [], 0, false⟩).trace)
    ∧ (({ params with source := AiProviderSource.custom } :
        CreateAiProviderParams).id = "")
    ∧ ((toggleProviderEnabled "" enabled ok ⟨s, [], 0, false⟩).failed = true →
      "" ∈ (toggleProviderEnabled "" enabled ok
        ⟨s, [], 0, false⟩).st.aiProviderLoadingIds) := by
  refine ⟨?_, ?_, ?_, ?_⟩
  · unfold toggleProviderEnabled
    rw [setState_trace]
    apply refreshAiProviderList_mem_mono
    apply awaitEffect_mem
    rw [setState_not_failed _ _ rfl]
  · unfold createNewAiProvider
    apply refreshAiProviderList_mem_mono
    exact awaitEffect_mem ok _ _ rfl
  · exact hid
  · exact (loading_bracket "" (refreshAiProviderList ok)
      (refreshAiProviderList_st ok) (.toggleProviderEnabled "" enabled) ok
      ⟨s, [], 0, false⟩ rfl).2

/-- C3 witness: the amended theorem applied at a concrete input. -/
theorem C3_witness :
    (Effect.gateway (.toggleProviderEnabled "" true) ∈
      (toggleProviderEnabled "" true (fun _ => true) ⟨demoState, [], 0, false⟩).trace)
    ∧ (Effect.gateway (.createAiProvider { (⟨"", none, .builtin, []⟩ :
        CreateAiProviderParams) with source := .custom }) ∈
      (createNewAiProvider ⟨"", none, .builtin, []⟩ (fun _ => true)
        ⟨demoState, [], 0, false⟩).trace)
    ∧ (({ (⟨"", none, .builtin, []⟩ : CreateAiProviderParams) with
        source := AiProviderSource.custom } : CreateAiProviderParams).id = "")
    ∧ ((toggleProviderEnabled "" true (fun _ => true)
        ⟨demoState, [], 0, false⟩).failed = true →
      "" ∈ (toggleProviderEnabled "" true (fun _ => true)
        ⟨demoState, [], 0, false⟩).st.aiProviderLoadingIds) :=
  C3_amended demoState (fun _ => true) true ⟨"", none, .builtin, []⟩ rfl

/-- C8: `createNewAiProvider` issues the gateway create call first, with
the caller's parameters spread and the source field overridden to the
custom (user-defined) classification; every other parameter field is
passed through unchanged. -/
theorem C8_create_forces_custom_source (params : CreateAiProviderParams)
    (ok : Nat → Bool) (s : AiInfraState) :
    ((createNewAiProvider params ok ⟨s, [], 0, false⟩).trace.head? =
      some (.gateway (.createAiProvider { params with source := .custom })))
    ∧ ({ params with source := AiProviderSource.custom } :
        CreateAiProviderParams).source = .custom
    ∧ ({ params with source := AiProviderSource.custom } :
        CreateAiProviderParams).id = params.id
    ∧ ({ params with source := AiProviderSource.custom } :
        CreateAiProviderParams).name = params.name
    ∧ ({ params with source := AiProviderSource.custom } :
        CreateAiProviderParams).config = params.config := by
  refine ⟨?_, rfl, rfl, rfl, rfl⟩
  unfold createNewAiProvider
  obtain ⟨t, ht⟩ := refreshAiProviderList_trace_append ok
    (awaitEffect ok (.gateway (.createAiProvider { params with source := .custom }))
      ⟨s, [], 0, false⟩)
  rw [ht, awaitEffect_not_failed _ _ _ rfl]
  simp

/-- C10: `deleteAiProvider` and `removeAiProvider` are extensionally equal:
for every identifier, oracle and runner they produce the same resulting
state, trace and outcome. -/
theorem C10_delete_remove_equal (id : String) (ok : Nat → Bool) (r : Runner) :
    deleteAiProvider id ok r = removeAiProvider id ok r := rfl

/-- C6: the runtime-state success handler is a no-op on an absent snapshot,
and on a defined snapshot sets exactly the four derived fields
(runtime config, enabled models, enabled providers, derived chat-model
tree) in one update, leaving every other store field unchanged. -/
theorem C6_runtime_state_handler_frame (s : AiInfraState) (d : AiProviderInitState) :
    (runtimeStateOnSuccess none s = s)
    ∧ ((runtimeStateOnSuccess (some d) s).aiProviderRuntimeConfig = d.runtimeConfig)
    ∧ ((runtimeStateOnSuccess (some d) s).enabledAiModels = d.enabledAiModels)
    ∧ ((runtimeStateOnSuccess (some d) s).enabledAiProviders = d.enabledAiProviders)
    ∧ ((runtimeStateOnSuccess (some d) s).enabledChatModelList =
        buildEnabledChatModelList d)
    ∧ ((runtimeStateOnSuccess (some d) s).activeAiProvider = s.activeAiProvider)
    ∧ ((runtimeStateOnSuccess (some d) s).aiProviderDetail = s.aiProviderDetail)
    ∧ ((runtimeStateOnSuccess (some d) s).aiProviderList = s.aiProviderList)
    ∧ ((runtimeStateOnSuccess (some d) s).initAiProviderList = s.initAiProviderList)
    ∧ ((runtimeStateOnSuccess (some d) s).aiProviderLoadingIds =
        s.aiProviderLoadingIds) :=
  ⟨rfl, rfl, rfl, rfl, rfl, rfl, rfl, rfl, rfl, rfl⟩

/-- A demonstration state with a loading list holding duplicates. -/
def demoLoadState : AiInfraState :=
  { demoState with aiProviderLoadingIds := ["a", "p1", "a", "p1"] }

/-- C9: turning the loading flag off filters out every occurrence of the
identifier while preserving the multiplicity and relative order of all
other identifiers; turning it on appends the identifier at the end without
checking for presence, so the loading list can hold duplicates. -/
theorem C9_loading_toggle_semantics (s : AiInfraState) (id : String) :
    (id ∉ (internal_toggleAiProviderLoading id false s).aiProviderLoadingIds)
    ∧ (∀ j, j ≠ id →
        (internal_toggleAiProviderLoading id false s).aiProviderLoadingIds.count j =
          s.aiProviderLoadingIds.count j)
    ∧ (List.Sublist
        (internal_toggleAiProviderLoading id false s).aiProviderLoadingIds
        s.aiProviderLoadingIds)
    ∧ ((internal_toggleAiProviderLoading id true s).aiProviderLoadingIds =
        s.aiProviderLoadingIds ++ [id])
    ∧ ((internal_toggleAiProviderLoading id true
        (internal_toggleAiProviderLoading id true s)).aiProviderLoadingIds.count id =
        s.aiProviderLoadingIds.count id + 2) := by
  refine ⟨?_, ?_, ?_, ?_, ?_⟩
  · rw [toggleLoading_false_ids]
    exact not_mem_filter_ne_self id _
  · intro j hj
    rw [toggleLoading_false_ids, List.count_filter]
    simp [hj]
  · rw [toggleLoading_false_ids]
    exact List.filter_sublist _
  · exact toggleLoading_true_ids id s
  · rw [toggleLoading_true_ids, toggleLoading_true_ids]
    simp [List.count_append]

/-- C9 witness: the theorem applied at a concrete state with duplicates. -/
theorem C9_witness :
    ((internal_toggleAiProviderLoading "p1" false
        demoLoadState).aiProviderLoadingIds.count "a" =
      demoLoadState.aiProviderLoadingIds.count "a")
    ∧ "p1" ∉ (internal_toggleAiProviderLoading "p1" false
        demoLoadState).aiProviderLoadingIds :=
  ⟨(C9_loading_toggle_semantics demoLoadState "p1").2.1 "a" (by decide),
   (C9_loading_toggle_semantics demoLoadState "p1").1⟩

/-- Members produced by the deduplication core come from the input list. -/
theorem uniqByIdGo_subset (l : List ChatModelCard) :
    ∀ (seen : List String) (c : ChatModelCard), c ∈ uniqByIdGo seen l → c ∈ l := by
  induction l with
  | nil => intro seen c h; simp [uniqByIdGo] at h
  | cons m ms ih =>
    intro seen c h
    unfold uniqByIdGo at h
    by_cases hm : m.id ∈ seen
    · rw [if_pos hm] at h
      exact List.mem_cons_of_mem m (ih seen c h)
    · rw [if_neg hm] at h
      rcases List.mem_cons.mp h with h1 | h2
      · subst h1; exact List.mem_cons_self _ _
      · exact List.mem_cons_of_mem m (ih _ c h2)

/-- The deduplication core yields pairwise-distinct identifiers, none of
which was already seen. -/
theorem uniqByIdGo_ids_spec (l : List ChatModelCard) :
    ∀ seen : List String,
      ((uniqByIdGo seen l).map (fun c => c.id)).Nodup ∧
      ∀ x ∈ (uniqByIdGo seen l).map (fun c => c.id), x ∉ seen := by
  induction l with
  | nil => intro seen; exact ⟨by simp [uniqByIdGo], by simp [uniqByIdGo]⟩
  | cons m ms ih =>
    intro seen
    unfold uniqByIdGo
    by_cases hm : m.id ∈ seen
    · rw [if_pos hm]; exact ih seen
    · rw [if_neg hm]
      obtain ⟨hnd, hns⟩ := ih (m.id :: seen)
      refine ⟨?_, ?_⟩
      · rw [List.map_cons]
        refine List.nodup_cons.mpr ⟨?_, hnd⟩
        intro hmem
        exact (hns _ hmem) (List.mem_cons_self _ _)
      · intro x hx hxs
        rw [List.map_cons] at hx
        rcases List.mem_cons.mp hx with h1 | h2
        · exact hm (h1 ▸ hxs)
        · exact (hns x h2) (List.mem_cons_of_mem _ hxs)

/-- The snapshot of the spec scenario: one chat model m1 under provider p1,
both with absent optional fields. -/
def scenarioInitState : AiProviderInitState :=
  { runtimeConfig := []
    enabledAiModels := [⟨"m1", "p1", "chat", none, none, none⟩]
    enabledAiProviders := [⟨"p1", none⟩] }

/-- A snapshot whose enabled-provider list repeats the same identifier. -/
def dupInitState : AiProviderInitState :=
  { runtimeConfig := []
    enabledAiModels := []
    enabledAiProviders := [{ id := "p1", name := none }, { id := "p1", name := none }] }

/-- C5: the claim as stated is false: on a snapshot whose enabled-provider
list repeats the identifier p1 (one distinct identifier), the derived tree
holds two nodes with id p1, not exactly one node per distinct identifier.
The tree is built per element of the list, not per distinct identifier. -/
theorem C5_counterexample :
    dupInitState.enabledAiProviders.map (fun p => p.id) = ["p1", "p1"] ∧
    ((buildEnabledChatModelList dupInitState).filter
      (fun n => n.id == "p1")).length = 2 ∧
    ¬ ((buildEnabledChatModelList dupInitState).filter
      (fun n => n.id == "p1")).length = 1 := by
  decide

/-- C5 (amended): the derived tree contains one node per element of the
snapshot's enabled-provider list, in order — hence exactly one node per
distinct enabled-provider identifier whenever those identifiers are
pairwise distinct; each node's children are the snapshot's enabled models
with that providerId and type chat, deduplicated by model identifier with
the first occurrence winning, with displayName falling back to the empty
string and abilities falling back to the empty map; the spec scenario
snapshot yields exactly the single-node tree. -/
theorem C5_amended (data : AiProviderInitState) :
    ((buildEnabledChatModelList data).map (fun n => n.id) =
      data.enabledAiProviders.map (fun p => p.id))
    ∧ (∀ node ∈ buildEnabledChatModelList data,
        (node.children.map (fun c => c.id)).Nodup)
    ∧ ((data.enabledAiProviders.map (fun p => p.id)).Nodup →
        ∀ pid ∈ data.enabledAiProviders.map (fun p => p.id),
          ((buildEnabledChatModelList data).map (fun n => n.id)).count pid = 1)
    ∧ (∀ node ∈ buildEnabledChatModelList data, ∀ c ∈ node.children,
        ∃ m, m ∈ data.enabledAiModels ∧ m.providerId = node.id ∧
          m.type = "chat" ∧ c.id = m.id ∧ c.displayName = m.displayName.getD "" ∧
          c.abilities = m.abilities.getD ModelAbilities.empty ∧
          c.contextWindowTokens = m.contextWindowTokens)
    ∧ (buildEnabledChatModelList scenarioInitState =
        [⟨[⟨ModelAbilities.empty, none, "", "m1"⟩], "p1", "p1"⟩]) := by
  have hids : (buildEnabledChatModelList data).map (fun n => n.id) =
      data.enabledAiProviders.map (fun p => p.id) := by
    unfold buildEnabledChatModelList
    rw [List.map_map]
    rfl
  refine ⟨hids, ?_, ?_, ?_, ?_⟩
  · intro node hn
    obtain ⟨p, hp, hfp⟩ := List.mem_map.mp hn
    subst hfp
    exact (uniqByIdGo_ids_spec _ []).1
  · intro hnd pid hpid
    rw [hids]
    exact List.count_eq_one_of_mem hnd hpid
  · intro node hn c hc
    obtain ⟨p, hp, hfp⟩ := List.mem_map.mp hn
    subst hfp
    have hc2 := uniqByIdGo_subset _ [] c hc
    obtain ⟨m, hm, hmc⟩ := List.mem_map.mp hc2
    obtain ⟨hm1, hm2⟩ := List.mem_filter.mp hm
    simp only [Bool.and_eq_true, beq_iff_eq] at hm2
    subst hmc
    exact ⟨m, hm1, hm2.1, hm2.2, rfl, rfl, rfl, rfl⟩
  · decide

/-- C5 witness: the amended theorem applied at the scenario snapshot, the
distinctness hypothesis discharged concretely. -/
theorem C5_witness :
    ((buildEnabledChatModelList scenarioInitState).map
      (fun n => n.id)).count "p1" = 1 :=
  (C5_amended scenarioInitState).2.2.1 (by decide) "p1" (by decide)

theorem setState_st_active (f : AiInfraState → AiInfraState)
    (hf : ∀ s, (f s).activeAiProvider = s.activeAiProvider) (r : Runner) :
    (setState f r).st.activeAiProvider = r.st.activeAiProvider := by
  unfold setState; split
  · rfl
  · simp [hf]

/-- The loading bracket around any state-preserving refresh keeps the
active provider identifier unchanged. -/
theorem bracket_active (id : String) (F : Runner → Runner)
    (hF : ∀ r, (F r).st = r.st) (g : GatewayCall) (ok : Nat → Bool) (r : Runner) :
    (setState (internal_toggleAiProviderLoading id false)
      (F (awaitEffect ok (.gateway g)
        (setState (internal_toggleAiProviderLoading id true)
          r)))).st.activeAiProvider = r.st.activeAiProvider := by
  rw [setState_st_active _ (toggleLoading_active id false), hF, awaitEffect_st,
    setState_st_active _ (toggleLoading_active id true)]

/-- C7: the update and update-config mutations mutate the detail cache key
built from the store's active provider identifier (not from the id
argument): the issued detail key always equals the active identifier, and
the active identifier is preserved by every mutation, refresh and
non-detail success handler, being set only by the detail-read success
handler when its fetch resolves with a defined value. -/
theorem C7_detail_refresh_uses_active (s : AiInfraState) (id : String)
    (value : UpdateAiProviderParams) (fields : UpdateAiProviderConfigParams)
    (params : CreateAiProviderParams) (items : List AiProviderSortMap)
    (enabled : Bool) (dd : AiProviderDetailItem) (ld : List AiProviderListItem)
    (rd : Option AiProviderInitState) (ok : Nat → Bool)
    (h0 : ok 0 = true) (h1 : ok 1 = true) (h2 : ok 2 = true) :
    (Effect.mutateKey (.fetchAiProviderItem s.activeAiProvider) ∈
      (updateAiProviderConfig id fields ok ⟨s, [], 0, false⟩).trace)
    ∧ (Effect.mutateKey (.fetchAiProviderItem s.activeAiProvider) ∈
      (updateAiProvider id value ok ⟨s, [], 0, false⟩).trace)
    ∧ (∀ (ok2 : Nat → Bool) (oid : Option String),
        Effect.mutateKey (.fetchAiProviderItem oid) ∈
          (updateAiProviderConfig id fields ok2 ⟨s, [], 0, false⟩).trace →
        oid = s.activeAiProvider)
    ∧ (∀ (ok2 : Nat → Bool) (oid : Option String),
        Effect.mutateKey (.fetchAiProviderItem oid) ∈
          (updateAiProvider id value ok2 ⟨s, [], 0, false⟩).trace →
        oid = s.activeAiProvider)
    ∧ (∀ (ok2 : Nat → Bool) (r : Runner) (s2 : AiInfraState),
        ((createNewAiProvider params ok2 r).st.activeAiProvider =
          r.st.activeAiProvider)
        ∧ ((deleteAiProvider id ok2 r).st.activeAiProvider = r.st.activeAiProvider)
        ∧ ((removeAiProvider id ok2 r).st.activeAiProvider = r.st.activeAiProvider)
        ∧ ((updateAiProviderSort items ok2 r).st.activeAiProvider =
          r.st.activeAiProvider)
        ∧ ((toggleProviderEnabled id enabled ok2 r).st.activeAiProvider =
          r.st.activeAiProvider)
        ∧ ((updateAiProvider id value ok2 r).st.activeAiProvider =
          r.st.activeAiProvider)
        ∧ ((updateAiProviderConfig id fields ok2 r).st.activeAiProvider =
          r.st.activeAiProvider)
        ∧ ((refreshAiProviderList ok2 r).st.activeAiProvider =
          r.st.activeAiProvider)
        ∧ ((refreshAiProviderDetail ok2 r).st.activeAiProvider =
          r.st.activeAiProvider)
        ∧ ((refreshAiProviderRuntimeState ok2 r).st.activeAiProvider =
          r.st.activeAiProvider)
        ∧ ((listOnSuccess ld s2).activeAiProvider = s2.activeAiProvider)
        ∧ ((runtimeStateOnSuccess rd s2).activeAiProvider = s2.activeAiProvider))
    ∧ (itemOnSuccess id none s = s)
    ∧ ((itemOnSuccess id (some dd) s).activeAiProvider = some id) := by
  refine ⟨?_, ?_, ?_, ?_, ?_, rfl, rfl⟩
  · cases hk1 : ok 1 <;> cases hk2 : ok 2 <;>
      simp [updateAiProviderConfig, refreshAiProviderDetail,
        refreshAiProviderRuntimeState, setState, awaitEffect, h0, hk1, hk2,
        toggleLoading_active]
  · cases hk3 : ok 3 <;> cases hk4 : ok 4 <;>
      simp [updateAiProvider, refreshAiProviderList, refreshAiProviderDetail,
        refreshAiProviderRuntimeState, setState, awaitEffect, h0, h1, h2, hk3, hk4,
        toggleLoading_active]
  · intro ok2 oid
    cases hk0 : ok2 0 <;> cases hk1 : ok2 1 <;> cases hk2 : ok2 2 <;>
      simp [updateAiProviderConfig, refreshAiProviderDetail,
        refreshAiProviderRuntimeState, setState, awaitEffect, hk0, hk1, hk2,
        toggleLoading_active]
  · intro ok2 oid
    cases hk0 : ok2 0 <;> cases hk1 : ok2 1 <;> cases hk2 : ok2 2 <;>
      cases hk3 : ok2 3 <;> cases hk4 : ok2 4 <;>
      simp [updateAiProvider, refreshAiProviderList, refreshAiProviderDetail,
        refreshAiProviderRuntimeState, setState, awaitEffect, hk0, hk1, hk2, hk3,
        hk4, toggleLoading_active]
  · intro ok2 r s2
    refine ⟨?_, ?_, ?_, ?_, ?_, ?_, ?_, ?_, ?_, ?_, ?_, ?_⟩
    · unfold createNewAiProvider
      rw [refreshAiProviderList_st, awaitEffect_st]
    · unfold deleteAiProvider
      rw [refreshAiProviderList_st, awaitEffect_st]
    · unfold removeAiProvider
      rw [refreshAiProviderList_st, awaitEffect_st]
    · unfold updateAiProviderSort
      rw [refreshAiProviderList_st, awaitEffect_st]
    · exact bracket_active id (refreshAiProviderList ok2)
        (refreshAiProviderList_st ok2) (.toggleProviderEnabled id enabled) ok2 r
    · exact bracket_active id
        (fun r => refreshAiProviderDetail ok2 (refreshAiProviderList ok2 r))
        (fun r => by rw [refreshAiProviderDetail_st, refreshAiProviderList_st])
        (.updateAiProvider id value) ok2 r
    · exact bracket_active id (refreshAiProviderDetail ok2)
        (refreshAiProviderDetail_st ok2) (.updateAiProviderConfig id fields) ok2 r
    · rw [refreshAiProviderList_st]
    · rw [refreshAiProviderDetail_st]
    · rw [refreshAiProviderRuntimeState_st]
    · unfold listOnSuccess; split <;> rfl
    · cases rd <;> rfl

/-- C7 witness: the theorem applied at a concrete input. -/
theorem C7_witness :
    (Effect.mutateKey (.fetchAiProviderItem demoState.activeAiProvider) ∈
      (updateAiProviderConfig "p3" [] (fun _ => true)
        ⟨demoState, [], 0, false⟩).trace)
    ∧ ((itemOnSuccess "p3" (some ⟨"p3", none, true⟩)
        demoState).activeAiProvider = some "p3") := by
  have h := C7_detail_refresh_uses_active demoState "p3" [] []
    ⟨"x", none, .builtin, []⟩ [] true ⟨"p3", none, true⟩ [] none
    (fun _ => true) rfl rfl rfl
  exact ⟨h.1, h.2.2.2.2.2.2⟩

end AiInfra
